import Mathlib

/-!
Verification of the Cloud Spanner support layer of TensorBoard
(`tensorboard/platforms/gcp/spanner.py` and `tensorboard/schema.py`).

The development shallowly embeds the Python code:
* the schema data model (`ColumnType`, `ColumnSchema`, `TableSchema`,
  `IndexSchema`) as Lean structures and inductives;
* the DDL generator (`to_spanner_type`, `to_spanner_ddl`) as functions
  into `Except String _` (a `raise ValueError` becomes `.error`);
* the statement classifier (`parse_sql`, `INSERT_PATTERN`,
  `SELECT_PATTERN`, `SelectSQL`) as deterministic character-list
  parsers implementing exactly the semantics of the Python regular
  expressions on the given patterns;
* the cursor (`CloudSpannerCursor`) as a state record with explicit
  state-passing operations; backend effects (batch insert, SQL
  execution) are recorded as an effect trace, and the rows a SELECT
  pulls from the backend are supplied by an oracle function.
-/

namespace TBSpanner

/-! ## Schema data model (`tensorboard/schema.py`)

`ColumnType` in Python is an open class hierarchy with the four
subclasses `BoolColumnType`, `BytesColumnType`, `Int64ColumnType`,
`StringColumnType`.  The constructor `other` models any further
subclass of `ColumnType`; it carries the class name that
`to_spanner_type` puts in its error message. -/

inductive ColumnType where
  | bool : ColumnType
  | bytes (length : Option Nat) : ColumnType
  | int64 : ColumnType
  | string (length : Option Nat) : ColumnType
  | other (className : String) : ColumnType
  deriving DecidableEq, Repr

structure ColumnSchema where
  name : String
  value_type : ColumnType
  not_null : Bool := false
  deriving DecidableEq, Repr

structure TableSchema where
  name : String
  columns : List ColumnSchema
  keys : List String
  deriving DecidableEq, Repr

structure IndexSchema where
  name : String
  table : String
  columns : List String
  deriving DecidableEq, Repr

/-! ## DDL generator (`spanner.py`, `to_spanner_type` / `to_spanner_ddl`) -/

/-- `to_spanner_type` from `spanner.py`.  The Python guard
`if column_type.length:` is a truthiness test: it is false both for
`None` and for `0`, so a length of `some 0` falls to the `MAX`
branch, exactly as in the source. -/
def to_spanner_type : ColumnType → Except String String
  | .bool => .ok "BOOL"
  | .bytes (some n) =>
      if n ≠ 0 then .ok ("BYTES(" ++ toString n ++ ")")
      else .ok "BYTES(MAX)"
  | .bytes none => .ok "BYTES(MAX)"
  | .int64 => .ok "INT64"
  | .string (some n) =>
      if n ≠ 0 then .ok ("STRING(" ++ toString n ++ ")")
      else .ok "STRING(MAX)"
  | .string none => .ok "STRING(MAX)"
  | .other className => .error (className ++ " is not a support ColumnType")

/-- The column-declaration strings built by the `for c in spec.columns`
loop of `to_spanner_ddl`: each column contributes
`'{name} {type}'`; an exception from `to_spanner_type` aborts the
loop and propagates. -/
def spanner_column_decls : List ColumnSchema → Except String (List String)
  | [] => .ok []
  | c :: rest => do
      let ty ← to_spanner_type c.value_type
      let others ← spanner_column_decls rest
      .ok ((c.name ++ " " ++ ty) :: others)

/-- The `TableSchema` branch of `to_spanner_ddl` from `spanner.py`:
`'CREATE TABLE {name} ({columns}) PRIMARY KEY ({key_fields})'` with
the column declarations and the key names joined by `', '`. -/
def to_spanner_ddl (spec : TableSchema) : Except String String := do
  let cols ← spanner_column_decls spec.columns
  .ok ("CREATE TABLE " ++ spec.name ++ " (" ++ String.intercalate ", " cols
        ++ ") PRIMARY KEY (" ++ String.intercalate ", " spec.keys ++ ")")

/-- The `IndexSchema` branch of `to_spanner_ddl` from `spanner.py`. -/
def to_spanner_index_ddl (spec : IndexSchema) : String :=
  "CREATE UNIQUE INDEX " ++ spec.name ++ " ON " ++ spec.table
    ++ " (" ++ String.intercalate ", " spec.columns ++ ")"

/-- `EVENT_LOGS_TABLE` from `tensorboard/schema.py`. -/
def EVENT_LOGS_TABLE : TableSchema :=
  { name := "EventLogs"
    columns :=
      [ ⟨"rowid", .int64, false⟩
      , ⟨"customer_number", .int64, false⟩
      , ⟨"run_id", .int64, true⟩
      , ⟨"event_log_id", .int64, false⟩
      , ⟨"path", .string (some 1023), true⟩
      , ⟨"offset", .int64, true⟩ ]
    keys := ["rowid", "customer_number", "run_id", "event_log_id"] }

/-! ## Parameter substitution (`parse_sql`, first half)

Python performs `sql.replace("?", "{}")`, wraps string parameters in
double quotes, and then calls `sql.format(*parameters)`.  `pyFormat`
models `str.format` for the constructs that can appear here:
auto-numbered empty fields and the brace escapes; any other brace
field makes substitution fail (in Python, `str.format` raises there),
as does running out of arguments; surplus arguments are ignored. -/

inductive SqlParam where
  | int (i : Int) : SqlParam
  | str (s : String) : SqlParam
  | bool (b : Bool) : SqlParam
  deriving DecidableEq, Repr

/-- The text a parameter contributes to the substituted statement:
strings are wrapped in double quotes by the loop in `parse_sql`
before formatting, other values are rendered by `str.format` as
`str(p)` would render them. -/
def SqlParam.toSubst : SqlParam → String
  | .int i => toString i
  | .str s => "\"" ++ s ++ "\""
  | .bool b => if b then "True" else "False"

/-- `sql.replace("?", "{}")` from `parse_sql`. -/
def replace_question : List Char → List Char
  | [] => []
  | '?' :: rest => '{' :: '}' :: replace_question rest
  | c :: rest => c :: replace_question rest

/-- The fragment of `str.format` reachable from `parse_sql`. -/
def pyFormat : List Char → List String → Option (List Char)
  | [], _ => some []
  | '{' :: '{' :: rest, args => (pyFormat rest args).map (fun t => '{' :: t)
  | '{' :: '}' :: rest, args =>
      match args with
      | [] => none
      | a :: moreArgs => (pyFormat rest moreArgs).map (fun t => a.data ++ t)
  | '{' :: _, _ => none
  | '}' :: '}' :: rest, args => (pyFormat rest args).map (fun t => '}' :: t)
  | '}' :: _, _ => none
  | c :: rest, args => (pyFormat rest args).map (fun t => c :: t)

/-- The whole substitution step of `parse_sql`: replace each `?` by
`{}`, quote string parameters, format. -/
def substitute_params (sql : String) (parameters : List SqlParam) : Option String :=
  (pyFormat (replace_question sql.data) (parameters.map SqlParam.toSubst)).map String.mk

/-! ## Pattern matching (`INSERT_PATTERN`, `SELECT_PATTERN`, `SelectSQL`)

The Python module classifies statements with `re.match` on three fixed
patterns.  Each pattern is embedded as a deterministic parser whose
behaviour on every input coincides with the leftmost-greedy match
semantics of the pattern (the character classes are ASCII, matching
Python 2 `re` with `re.IGNORECASE`). -/

/-- Python `\s` for ASCII text: space, tab, newline, vertical tab,
form feed, carriage return. -/
def isSpaceChar (c : Char) : Bool :=
  c = ' ' || c = '\t' || c = '\n' || c = '\r' || c.toNat = 11 || c.toNat = 12

def skipSpaces (s : List Char) : List Char :=
  s.dropWhile isSpaceChar

/-- Case-insensitive literal matching: strips `lit` (given lowercase)
from the front of `s`, comparing lowercased characters. -/
def stripCI (lit : List Char) (s : List Char) : Option (List Char) :=
  match lit, s with
  | [], rest => some rest
  | _ :: _, [] => none
  | l :: ls, c :: cs => if c.toLower = l then stripCI ls cs else none

/-- `[a-z0-9_]` under `re.IGNORECASE` (the table-name class of
`INSERT_PATTERN`). -/
def insertIdentChar (c : Char) : Bool :=
  c.isAlpha || c.isDigit || c = '_'

/-- `[a-z0-9,_\s]` under `re.IGNORECASE` (the column-list class of
`INSERT_PATTERN`). -/
def insertColsChar (c : Char) : Bool :=
  c.isAlpha || c.isDigit || c = ',' || c = '_' || isSpaceChar c

/-- `str.split(',')`: splits at every comma, keeping empty pieces
(so the empty string yields one empty piece). -/
def splitComma : List Char → List (List Char)
  | [] => [[]]
  | ',' :: rest => [] :: splitComma rest
  | c :: rest =>
      match splitComma rest with
      | piece :: pieces => (c :: piece) :: pieces
      | [] => [[c]]

/-- `str.strip()`: removes leading and trailing whitespace. -/
def pyStrip (cs : List Char) : List Char :=
  ((cs.dropWhile isSpaceChar).reverse.dropWhile isSpaceChar).reverse

/-- The `\((.*)\)` tail of `INSERT_PATTERN`: greedy `.*` cannot cross
a newline, so the captured group runs to the last `)` on the current
line; with no such `)` the pattern fails. -/
def valuesGroup : List Char → Option (List Char)
  | [] => none
  | '\n' :: _ => none
  | ')' :: rest =>
      match valuesGroup rest with
      | some g => some (')' :: g)
      | none => some []
  | c :: rest =>
      match valuesGroup rest with
      | some g => some (c :: g)
      | none => none

structure InsertSQL where
  table : String
  columns : List String
  values : List String
  deriving DecidableEq, Repr

structure SelectSQL where
  sql : String
  table : String
  columns : List String
  deriving DecidableEq, Repr

/-- `INSERT_PATTERN.match` together with the group post-processing in
`parse_sql` (`strip` of each comma-separated column and value).  The
pattern is
`\s*insert\s*into\s*([a-z0-9_]*)\s*\(([a-z0-9,_\s]*)\)\s*values\s*\((.*)\)`
with `re.IGNORECASE`; every quantifier before the final `(.*)` is
deterministic because its character class excludes the following
literal character. -/
def match_insert (s : List Char) : Option InsertSQL :=
  match stripCI ['i', 'n', 's', 'e', 'r', 't'] (skipSpaces s) with
  | none => none
  | some s2 =>
    match stripCI ['i', 'n', 't', 'o'] (skipSpaces s2) with
    | none => none
    | some s3 =>
      let s4 := skipSpaces s3
      let table := s4.takeWhile insertIdentChar
      match skipSpaces (s4.dropWhile insertIdentChar) with
      | '(' :: s5 =>
        let cols := s5.takeWhile insertColsChar
        match s5.dropWhile insertColsChar with
        | ')' :: s6 =>
          match stripCI ['v', 'a', 'l', 'u', 'e', 's'] (skipSpaces s6) with
          | none => none
          | some s7 =>
            match skipSpaces s7 with
            | '(' :: s8 =>
              match valuesGroup s8 with
              | none => none
              | some vals =>
                some { table := String.mk table
                       columns := (splitComma cols).map (fun c => String.mk (pyStrip c))
                       values := (splitComma vals).map (fun v => String.mk (pyStrip v)) }
            | _ => none
        | _ => none
      | _ => none

/-- `SELECT_PATTERN.match`: the pattern `\s*select.*` with
`re.IGNORECASE` matches exactly when the text starts, after optional
whitespace, with `select` in any case. -/
def matches_select (s : List Char) : Bool :=
  (stripCI ['s', 'e', 'l', 'e', 'c', 't'] (skipSpaces s)).isSome

/-- `[a-z0-9_,\s]` under `re.IGNORECASE` (the select-list class of
`SelectSQL._PATTERN`). -/
def selectListChar (c : Char) : Bool :=
  c.isAlpha || c.isDigit || c = '_' || c = ',' || isSpaceChar c

/-- `[a-z0-9,_]` under `re.IGNORECASE` (the table-name class of
`SelectSQL._PATTERN`). -/
def selectTableChar (c : Char) : Bool :=
  c.isAlpha || c.isDigit || c = ',' || c = '_'

/-- `[a-zA-z0-9_]` of `SelectSQL._COL_NAME_PATTERN` (no flags).  The
range `A-z` spans ASCII 65–122, so it covers both alphabets and the
punctuation between them, underscore included; the extra `a-z` and
`_` are redundant. -/
def colNameChar (c : Char) : Bool :=
  c.isDigit || ('A' ≤ c && c ≤ 'z')

/-- The backbone `([a-z0-9_,\s]*)from` of `SelectSQL._PATTERN`.
Greedy matching picks the **last** occurrence of `from`
(case-insensitive) reachable through the character class; the
returned pair is (captured select list, text after that `from`).
The recursion prefers a split further right, which is exactly the
backtracking order of the greedy `*`. -/
def selectSplit : List Char → Option (List Char × List Char)
  | [] => none
  | c :: rest =>
      if selectListChar c then
        match selectSplit rest with
        | some (p, suffix) => some (c :: p, suffix)
        | none =>
            match stripCI ['f', 'r', 'o', 'm'] (c :: rest) with
            | some suffix => some ([], suffix)
            | none => none
      else
        match stripCI ['f', 'r', 'o', 'm'] (c :: rest) with
        | some suffix => some ([], suffix)
        | none => none

/-- `_COL_NAME_PATTERN.match(c).group(1)`: leading whitespace is
eaten by `\s*`, the group captures the maximal run of class
characters, the rest falls into `\s*.*`.  The Python
`if not m: raise` branch is dead: the pattern accepts every string. -/
def select_column_name (cs : List Char) : String :=
  String.mk ((cs.dropWhile isSpaceChar).takeWhile colNameChar)

/-- `SelectSQL.__init__` from `spanner.py`: match `_PATTERN`
(`\s*select\s*([a-z0-9_,\s]*)from\s*([a-z0-9,_]*).*`, IGNORECASE)
against the substituted statement, raising `ValueError` when it does
not match; keep the raw statement, capture the table name and the
comma-separated select list, and extract each column name. -/
def mk_select (sql : String) : Except String SelectSQL :=
  match stripCI ['s', 'e', 'l', 'e', 'c', 't'] (skipSpaces sql.data) with
  | none => .error ("Could not parse columns and table name from query: " ++ sql)
  | some rest =>
    match selectSplit (skipSpaces rest) with
    | none => .error ("Could not parse columns and table name from query: " ++ sql)
    | some (selectList, afterFrom) =>
      .ok { sql := sql
            table := String.mk ((skipSpaces afterFrom).takeWhile selectTableChar)
            columns := (splitComma selectList).map select_column_name }

inductive ParsedSQL where
  | insert (i : InsertSQL) : ParsedSQL
  | select (q : SelectSQL) : ParsedSQL
  deriving DecidableEq, Repr

/-- `parse_sql` from `spanner.py`: substitute parameters, try
`INSERT_PATTERN`, then `SELECT_PATTERN` (constructing a `SelectSQL`,
whose own parse failure propagates as an error), otherwise fall
through (`.ok none` models Python returning `None`).  A failure of
the substitution itself (`str.format` raising) is an error as well. -/
def parse_sql (sql : String) (parameters : List SqlParam) :
    Except String (Option ParsedSQL) :=
  match substitute_params sql parameters with
  | none => .error ("could not format SQL statement: " ++ sql)
  | some substituted =>
    match match_insert substituted.data with
    | some i => .ok (some (.insert i))
    | none =>
      if matches_select substituted.data then
        (mk_select substituted).map (fun q => some (.select q))
      else
        .ok none

/-! ## Cursor adapter (`CloudSpannerCursor`)

The cursor's result-relevant state is `_results` (the buffered rows),
`_rindex` (the read position), and `_descriptions`.  A description
row in Python is `[name, None, None, None, None, None, None]`; only
the name varies, so descriptions are modelled by the list of names.
The backend handles (`client`, `instance`, `database`) and the unused
`arraysize` attribute carry no result-relevant state and are not
modelled.  Backend effects are recorded as a trace of `BackendOp`s,
and the rows a SELECT pulls are supplied by a `backend` oracle
mapping the raw query text to rows. -/

structure CursorState (Row : Type) where
  results : List Row
  rindex : Nat
  descriptions : List String
  deriving Repr

/-- The cursor state established by `CloudSpannerCursor.__init__`. -/
def initialCursor (Row : Type) : CursorState Row :=
  { results := [], rindex := 0, descriptions := [] }

/-- `fetchone`: when `_rindex < len(_results)`, increment `_rindex`
and return `_results[_rindex - 1]`; otherwise fall off the end of
the method, returning Python's `None`. -/
def fetchone {Row : Type} (s : CursorState Row) : Option Row × CursorState Row :=
  if s.rindex < s.results.length then
    (s.results.get? s.rindex, { s with rindex := s.rindex + 1 })
  else
    (none, s)

/-- `fetchmany(size=None)`: slice `_results[start:end]` with
`start = _rindex` and `end = start + size` (or `len(_results)` when
`size` is `None`), then set `_rindex = end`.  Python's slice clamps,
the assignment to `_rindex` does not. -/
def fetchmany {Row : Type} (size : Option Nat) (s : CursorState Row) :
    List Row × CursorState Row :=
  let start_index := s.rindex
  let end_index :=
    match size with
    | some n => start_index + n
    | none => s.results.length
  ((s.results.drop start_index).take (end_index - start_index),
    { s with rindex := end_index })

/-- `fetchall`: slice from `_rindex` to the end and set `_rindex` to
`len(_results)`. -/
def fetchall {Row : Type} (s : CursorState Row) : List Row × CursorState Row :=
  let start_index := s.rindex
  let end_index := s.results.length
  ((s.results.drop start_index).take (end_index - start_index),
    { s with rindex := end_index })

/-- `__iter__`: `for row in self._results: yield row` — the whole
buffer, in order, from index zero, ignoring `_rindex`. -/
def cursorIter {Row : Type} (s : CursorState Row) : List Row :=
  s.results

/-- One backend interaction issued by `execute`: the batch insert of
the `InsertSQL` branch (`batch.insert(table, columns, values=[...])`)
or the query execution of the `SelectSQL` branch
(`session.execute_sql(parsed.sql)`). -/
inductive BackendOp where
  | batchInsert (table : String) (columns : List String)
      (values : List (List String)) : BackendOp
  | executeSql (sql : String) : BackendOp
  deriving DecidableEq, Repr

/-- The outcome of one `execute` call: the normal return or the
raised exception, the trace of backend interactions, and the cursor
state after the call (on an exception, the state at the raise
point). -/
structure ExecuteOutcome (Row : Type) where
  result : Except String Unit
  ops : List BackendOp
  state : CursorState Row
  deriving Repr

/-- `CloudSpannerCursor.execute` from `spanner.py`.  `parse_sql`
failures propagate; an unparsed statement raises
`ValueError('SQL query {} is not supported for Cloud Spanner.')`
formatted with the *original* statement text; the `InsertSQL` branch
issues one batch insert of the single row `parsed.values` and
returns without touching `_results`/`_rindex`; the `SelectSQL`
branch runs the raw query, buffers all returned rows, resets
`_rindex` to zero and rebuilds `_descriptions` from the parsed
column names.  (The `self.database` handle refresh at the top of the
method touches no result-relevant state.) -/
def execute {Row : Type} (backend : String → List Row) (s : CursorState Row)
    (sql : String) (parameters : List SqlParam) : ExecuteOutcome Row :=
  match parse_sql sql parameters with
  | .error e => { result := .error e, ops := [], state := s }
  | .ok none =>
      { result := .error ("SQL query " ++ sql ++ " is not supported for Cloud Spanner.")
        ops := []
        state := s }
  | .ok (some (.insert i)) =>
      { result := .ok ()
        ops := [.batchInsert i.table i.columns [i.values]]
        state := s }
  | .ok (some (.select q)) =>
      { result := .ok ()
        ops := [.executeSql q.sql]
        state := { s with results := backend q.sql, rindex := 0, descriptions := q.columns } }

/-- One fetch-protocol call, for reasoning about call sequences. -/
inductive FetchOp where
  | one : FetchOp
  | many (size : Option Nat) : FetchOp
  | all : FetchOp
  deriving DecidableEq, Repr

/-- The cursor state after one fetch call (the returned rows
discarded). -/
def applyFetch {Row : Type} (op : FetchOp) (s : CursorState Row) : CursorState Row :=
  match op with
  | .one => (fetchone s).2
  | .many size => (fetchmany size s).2
  | .all => (fetchall s).2

/-- The cursor state after a sequence of fetch calls. -/
def applyFetches {Row : Type} (ops : List FetchOp) (s : CursorState Row) : CursorState Row :=
  ops.foldl (fun st op => applyFetch op st) s

/-! ## Helper lemmas -/

/-- No fetch call changes the buffered result set. -/
theorem applyFetch_results {Row : Type} (op : FetchOp) (s : CursorState Row) :
    (applyFetch op s).results = s.results := by
  cases op with
  | one =>
      by_cases h : s.rindex < s.results.length <;> simp [applyFetch, fetchone, h]
  | many size => rfl
  | all => rfl

/-- No sequence of fetch calls changes the buffered result set. -/
theorem applyFetches_results {Row : Type} (ops : List FetchOp) (s : CursorState Row) :
    (applyFetches ops s).results = s.results := by
  induction ops generalizing s with
  | nil => rfl
  | cons op rest ih =>
      show (applyFetches rest (applyFetch op s)).results = s.results
      rw [ih, applyFetch_results]

/-- The column-declaration loop of the DDL generator, described
pointwise: when every column type translates, the declarations are
the columns in order, each rendered as name-space-type. -/
theorem spanner_column_decls_map (typeOf : ColumnSchema → String) :
    ∀ cols : List ColumnSchema,
      (∀ c ∈ cols, to_spanner_type c.value_type = .ok (typeOf c)) →
      spanner_column_decls cols = .ok (cols.map fun c => c.name ++ " " ++ typeOf c)
  | [], _ => rfl
  | c :: rest, h => by
      have hc : to_spanner_type c.value_type = .ok (typeOf c) :=
        h c (List.mem_cons_self c rest)
      have hrest := spanner_column_decls_map typeOf rest
        (fun x hx => h x (List.mem_cons_of_mem c hx))
      simp only [spanner_column_decls, hc, hrest]
      rfl

/-! ## The claims -/

/-- C4: parsing the EventLogs INSERT statement with parameters
(1, 2, 3, 4, "p", 5) yields an Insert with table EventLogs, the six
columns in declaration order, and the values rendered as unquoted
numerals except the string parameter, which is wrapped in double
quotes. -/
theorem insert_param_round_trip :
    parse_sql "INSERT INTO EventLogs (rowid, customer_number, run_id, event_log_id, path, offset) VALUES (?, ?, ?, ?, ?, ?)"
        [.int 1, .int 2, .int 3, .int 4, .str "p", .int 5]
      = .ok (some (.insert
          { table := "EventLogs"
            columns := ["rowid", "customer_number", "run_id", "event_log_id", "path", "offset"]
            values := ["1", "2", "3", "4", "\"p\"", "5"] })) := by
  rfl

/-- C5: parsing the EventLogs SELECT statement with parameters
(297, 0) yields a Select whose table is EventLogs, whose column list
is [rowid, customer_number] with surrounding whitespace trimmed, and
whose raw query is the original text with the first placeholder
replaced by 297 and the second by 0. -/
theorem select_param_round_trip :
    parse_sql "SELECT rowid, customer_number FROM EventLogs WHERE rowid = ? AND event_log_id = ?"
        [.int 297, .int 0]
      = .ok (some (.select
          { sql := "SELECT rowid, customer_number FROM EventLogs WHERE rowid = 297 AND event_log_id = 0"
            table := "EventLogs"
            columns := ["rowid", "customer_number"] })) := by
  rfl

/-- C6: the column-type translation is total over the four declared
variants — BOOL for Bool, BYTES(n) for a bounded Bytes and
BYTES(MAX) for an unbounded one, INT64 for Int64, STRING(n) for a
bounded String and STRING(MAX) for an unbounded one — and fails with
an unsupported-type error on any other variant.  (Bounds are
positive by the data-model invariant; the Python truthiness test
sends a zero bound to the MAX branch.) -/
theorem to_spanner_type_spec :
    to_spanner_type .bool = .ok "BOOL"
    ∧ (∀ n : Nat, 0 < n →
        to_spanner_type (.bytes (some n)) = .ok ("BYTES(" ++ toString n ++ ")"))
    ∧ to_spanner_type (.bytes none) = .ok "BYTES(MAX)"
    ∧ to_spanner_type .int64 = .ok "INT64"
    ∧ (∀ n : Nat, 0 < n →
        to_spanner_type (.string (some n)) = .ok ("STRING(" ++ toString n ++ ")"))
    ∧ to_spanner_type (.string none) = .ok "STRING(MAX)"
    ∧ (∀ className : String, to_spanner_type (.other className)
        = .error (className ++ " is not a support ColumnType")) := by
  refine ⟨rfl, ?_, rfl, rfl, ?_, rfl, fun _ => rfl⟩ <;>
    exact fun n hn => by simp [to_spanner_type, Nat.pos_iff_ne_zero.mp hn]

/-- Witness for C6 at the concrete bounds 1023 and 500. -/
theorem to_spanner_type_spec_witness :
    to_spanner_type (.bytes (some 1023)) = .ok ("BYTES(" ++ toString (1023 : Nat) ++ ")")
    ∧ to_spanner_type (.string (some 500)) = .ok ("STRING(" ++ toString (500 : Nat) ++ ")") :=
  ⟨to_spanner_type_spec.2.1 1023 (by decide),
   to_spanner_type_spec.2.2.2.2.1 500 (by decide)⟩

/-- C8: fetchone returns the row at the current read position and
advances the position by one; at or past the end of the buffer it
returns no row (None) and leaves the state unchanged, rather than
raising an error. -/
theorem fetchone_spec {Row : Type} (s : CursorState Row) :
    (∀ h : s.rindex < s.results.length,
        fetchone s = (some (s.results.get ⟨s.rindex, h⟩), { s with rindex := s.rindex + 1 }))
    ∧ (s.results.length ≤ s.rindex → fetchone s = (none, s)) := by
  constructor
  · intro h
    simp [fetchone, h, List.get?_eq_get]
  · intro h
    simp [fetchone, Nat.not_lt.mpr h]

/-- Witness for C8: one fetch inside the buffer and one past it. -/
theorem fetchone_spec_witness :
    fetchone ({ results := [10, 20], rindex := 0, descriptions := [] } : CursorState Nat)
        = (some 10, { results := [10, 20], rindex := 1, descriptions := [] })
    ∧ fetchone ({ results := [10, 20], rindex := 5, descriptions := [] } : CursorState Nat)
        = (none, { results := [10, 20], rindex := 5, descriptions := [] }) :=
  ⟨(fetchone_spec _).1 (by decide), (fetchone_spec _).2 (by decide)⟩

/-- C9: iterating the cursor yields exactly the rows of the current
buffered result set, in order, from position zero — a finite,
one-pass list — independent of the read position established by any
prior sequence of fetch calls. -/
theorem cursor_iter_spec {Row : Type} (s : CursorState Row) (ops : List FetchOp) (k : Nat) :
    cursorIter (applyFetches ops s) = s.results
    ∧ cursorIter (applyFetches ops s) = (applyFetches ops s).results
    ∧ cursorIter { s with rindex := k } = cursorIter s := by
  refine ⟨?_, rfl, rfl⟩
  show (applyFetches ops s).results = s.results
  exact applyFetches_results ops s

/-- C7: for a table schema whose column types all translate, the
generated DDL is the CREATE TABLE statement whose parenthesized
declaration list carries every column name exactly once, in
declaration order, each paired with its backend type, and whose
PRIMARY KEY clause lists exactly the table's key columns in declared
order. -/
theorem to_spanner_ddl_spec (t : TableSchema) (typeOf : ColumnSchema → String)
    (hnodup : (t.columns.map ColumnSchema.name).Nodup)
    (hty : ∀ c ∈ t.columns, to_spanner_type c.value_type = .ok (typeOf c)) :
    to_spanner_ddl t = .ok ("CREATE TABLE " ++ t.name ++ " ("
      ++ String.intercalate ", " (t.columns.map fun c => c.name ++ " " ++ typeOf c)
      ++ ") PRIMARY KEY (" ++ String.intercalate ", " t.keys ++ ")")
    ∧ (∀ nm ∈ t.columns.map ColumnSchema.name,
        (t.columns.map ColumnSchema.name).count nm = 1) := by
  constructor
  · have h := spanner_column_decls_map typeOf t.columns hty
    simp only [to_spanner_ddl, h]
    rfl
  · intro nm hnm
    exact List.count_eq_one_of_mem hnodup hnm

/-- Witness for C7 at the EventLogs table. -/
theorem to_spanner_ddl_spec_witness :
    to_spanner_ddl EVENT_LOGS_TABLE
      = .ok ("CREATE TABLE EventLogs (rowid INT64, customer_number INT64, run_id INT64, event_log_id INT64, path STRING(1023), offset INT64) PRIMARY KEY (rowid, customer_number, run_id, event_log_id)") := by
  rw [(to_spanner_ddl_spec EVENT_LOGS_TABLE
        (fun c => if c.name = "path" then "STRING(1023)" else "INT64")
        (by decide) (by intro c hc; fin_cases hc <;> rfl)).1]
  rfl

/-- C3: when the substituted statement matches neither the INSERT nor
the SELECT grammar, execute raises the unsupported-statement error
naming the original SQL text, performs no backend operation, and
leaves the cursor state unchanged. -/
theorem execute_unsupported_spec {Row : Type} (backend : String → List Row)
    (s : CursorState Row) (sql : String) (parameters : List SqlParam)
    (substituted : String)
    (hsub : substitute_params sql parameters = some substituted)
    (hins : match_insert substituted.data = none)
    (hsel : matches_select substituted.data = false) :
    execute backend s sql parameters =
      { result := .error ("SQL query " ++ sql ++ " is not supported for Cloud Spanner.")
        ops := []
        state := s } := by
  simp [execute, parse_sql, hsub, hins, hsel]

/-- Witness for C3 at the spec's UPDATE example. -/
theorem execute_unsupported_spec_witness :
    execute (fun _ => ([] : List Nat))
        { results := [7], rindex := 1, descriptions := [] }
        "UPDATE EventLogs SET offset = ? WHERE rowid = ?" [.int 1, .int 2] =
      { result := .error ("SQL query " ++ "UPDATE EventLogs SET offset = ? WHERE rowid = ?"
            ++ " is not supported for Cloud Spanner.")
        ops := []
        state := { results := [7], rindex := 1, descriptions := [] } } :=
  execute_unsupported_spec _ _ _ _
    "UPDATE EventLogs SET offset = 1 WHERE rowid = 2" (by rfl) (by rfl) (by rfl)

/-- C1 counterexample: a SELECT buffers two rows; a following
successful INSERT on the same cursor does **not** reset the buffer or
the read position, so the next fetchone still returns the first
buffered row instead of no row. -/
theorem execute_insert_preserves_buffer_cex :
    (execute (fun _ => [7, 8])
        (execute (fun _ => [7, 8]) (initialCursor Nat) "SELECT a from t" []).state
        "INSERT INTO t (a) VALUES (1)" []).result = .ok ()
    ∧ (fetchone (execute (fun _ => [7, 8])
        (execute (fun _ => [7, 8]) (initialCursor Nat) "SELECT a from t" []).state
        "INSERT INTO t (a) VALUES (1)" []).state).1 = some 7 :=
  ⟨rfl, rfl⟩

/-- C1 amended: execute of a statement parsed as an INSERT performs a
single batch insert of one row and returns with the cursor's buffered
result set and read position exactly as they were before the call —
so fetches on a cursor with no prior SELECT yield nothing, but rows
buffered by an earlier SELECT remain readable. -/
theorem execute_insert_spec {Row : Type} (backend : String → List Row)
    (s : CursorState Row) (sql : String) (parameters : List SqlParam)
    (i : InsertSQL)
    (h : parse_sql sql parameters = .ok (some (.insert i))) :
    execute backend s sql parameters =
      { result := .ok ()
        ops := [.batchInsert i.table i.columns [i.values]]
        state := s } := by
  simp [execute, h]

/-- Witness for C1's amended theorem at a concrete INSERT. -/
theorem execute_insert_spec_witness :
    execute (fun _ => ([] : List Nat))
        { results := [7, 8], rindex := 1, descriptions := [] }
        "INSERT INTO t (a) VALUES (1)" [] =
      { result := .ok ()
        ops := [.batchInsert "t" ["a"] [["1"]]]
        state := { results := [7, 8], rindex := 1, descriptions := [] } } :=
  execute_insert_spec _ _ _ _ ⟨"t", ["a"], ["1"]⟩ (by rfl)

/-- C2 counterexample: on a one-row buffer, fetchmany(5) returns one
row but advances the read position by 5 — past the end of the buffer
— not by the number of rows returned. -/
theorem fetchmany_advance_cex :
    ((fetchmany (some 5)
        ({ results := [7], rindex := 0, descriptions := [] } : CursorState Nat)).1).length = 1
    ∧ ((fetchmany (some 5)
        ({ results := [7], rindex := 0, descriptions := [] } : CursorState Nat)).2).rindex = 5
    ∧ ((fetchmany (some 5)
        ({ results := [7], rindex := 0, descriptions := [] } : CursorState Nat)).2).rindex
      ≠ ({ results := [7], rindex := 0, descriptions := [] } : CursorState Nat).rindex
        + ((fetchmany (some 5)
            ({ results := [7], rindex := 0, descriptions := [] } : CursorState Nat)).1).length := by
  refine ⟨rfl, rfl, ?_⟩
  decide

/-- C2 amended: fetchmany(n) returns up to n rows starting at the
current read position — exactly the rows between the position and
min(position + n, buffer length) — and sets the position to
position + n unconditionally, which can point past the end of the
buffer; the position advances by exactly the number of rows returned
only when at least n rows remain. -/
theorem fetchmany_spec {Row : Type} (s : CursorState Row) (n : Nat) :
    (fetchmany (some n) s).1 = (s.results.drop s.rindex).take n
    ∧ ((fetchmany (some n) s).1).length = min n (s.results.length - s.rindex)
    ∧ ((fetchmany (some n) s).2).rindex = s.rindex + n
    ∧ ((fetchmany (some n) s).2).results = s.results
    ∧ (s.rindex + n ≤ s.results.length →
        ((fetchmany (some n) s).2).rindex = s.rindex + ((fetchmany (some n) s).1).length) := by
  have htake : (fetchmany (some n) s).1 = (s.results.drop s.rindex).take n := by
    simp [fetchmany]
  have hlen : ((fetchmany (some n) s).1).length = min n (s.results.length - s.rindex) := by
    rw [htake]
    simp [List.length_take, List.length_drop]
  refine ⟨htake, hlen, rfl, rfl, fun hrem => ?_⟩
  have : min n (s.results.length - s.rindex) = n :=
    Nat.min_eq_left (Nat.le_sub_of_add_le (by omega))
  rw [hlen, this]
  rfl

/-- Witness for C2's amended theorem: a fetch fully inside the
buffer, where the position does advance by the number returned. -/
theorem fetchmany_spec_witness :
    ((fetchmany (some 2)
        ({ results := [1, 2, 3], rindex := 1, descriptions := [] } : CursorState Nat)).2).rindex
      = 1 + ((fetchmany (some 2)
        ({ results := [1, 2, 3], rindex := 1, descriptions := [] } : CursorState Nat)).1).length :=
  (fetchmany_spec ({ results := [1, 2, 3], rindex := 1, descriptions := [] } : CursorState Nat)
      2).2.2.2.2 (by decide)

/-- C10 counterexample: fetchmany(5) on a one-row buffer pushes the
read position to 5; the following fetchall sets it back to the
buffer length 1 — the position decreases. -/
theorem fetch_position_decrease_cex :
    (applyFetch .all (applyFetch (.many (some 5))
        ({ results := [7], rindex := 0, descriptions := [] } : CursorState Nat))).rindex
      < (applyFetch (.many (some 5))
        ({ results := [7], rindex := 0, descriptions := [] } : CursorState Nat)).rindex := by
  decide

/-- C10 amended: across fetchone/fetchmany/fetchall calls the read
position never decreases except that a size-less fetchmany or a
fetchall clamps an overshot position back to the buffer length (so
each step either keeps the position non-decreasing or lands it
exactly on the buffer length); while the position stays within the
buffer it is monotone outright; and no fetch call fails when the
position is at or beyond the buffer length — it returns no row or an
empty list. -/
theorem fetch_position_spec {Row : Type} (s : CursorState Row) :
    (∀ op : FetchOp, s.rindex ≤ (applyFetch op s).rindex
        ∨ (applyFetch op s).rindex = s.results.length)
    ∧ (s.rindex ≤ s.results.length →
        ∀ op : FetchOp, s.rindex ≤ (applyFetch op s).rindex)
    ∧ (s.results.length ≤ s.rindex →
        (fetchone s).1 = none
        ∧ (∀ size, (fetchmany size s).1 = [])
        ∧ (fetchall s).1 = []) := by
  have hdrop : s.results.length ≤ s.rindex → s.results.drop s.rindex = [] :=
    fun h => List.drop_eq_nil_of_le h
  refine ⟨?_, ?_, ?_⟩
  · intro op
    cases op with
    | one =>
        by_cases h : s.rindex < s.results.length
        · exact Or.inl (by simp [applyFetch, fetchone, h])
        · exact Or.inl (by simp [applyFetch, fetchone, h])
    | many size =>
        cases size with
        | some n => exact Or.inl (Nat.le_add_right _ _)
        | none => exact Or.inr rfl
    | all => exact Or.inr rfl
  · intro hle op
    cases op with
    | one =>
        by_cases h : s.rindex < s.results.length
        · simp [applyFetch, fetchone, h]
        · simp [applyFetch, fetchone, h]
    | many size =>
        cases size with
        | some n => exact Nat.le_add_right _ _
        | none => exact hle
    | all => exact hle
  · intro h
    refine ⟨?_, ?_, ?_⟩
    · simp [fetchone, Nat.not_lt.mpr h]
    · intro size
      cases size <;> simp [fetchmany, hdrop h]
    · simp [fetchall, hdrop h]

/-- Witness for C10's amended theorem: monotone step within the
buffer, and empty results past the end. -/
theorem fetch_position_spec_witness :
    ((0 : Nat) ≤ (applyFetch .one
        ({ results := [7], rindex := 0, descriptions := [] } : CursorState Nat)).rindex)
    ∧ (fetchone ({ results := [7], rindex := 2, descriptions := [] } : CursorState Nat)).1 = none :=
  ⟨(fetch_position_spec ({ results := [7], rindex := 0, descriptions := [] } : CursorState Nat)).2.1
      (by decide) .one,
   ((fetch_position_spec ({ results := [7], rindex := 2, descriptions := [] } : CursorState Nat)).2.2
      (by decide)).1⟩

end TBSpanner
